import Mathlib

/-!
# Shallow embedding of the landscape-client privileged update launchers

This file embeds the three C launchers of the repository:

* `src/apt-update/apt-update.c` (the apt-update variant),
* the first file of `src/unnamed/part_000` (the historical smart-update
  variant, Conectiva 2004), and
* the second file of `src/unnamed/part_000` (the newer smart-update
  variant, Canonical 2009).

Each launcher is a straight-line `main` whose interactions with the
operating system are modelled by a `World` record (the result of
`getpwuid(geteuid())`, the ambient environment, the `RLIMIT_NOFILE` hard
limit, and the success of each fallible call) and whose observable
behaviour is a trace of `Event`s (the credential-changing and
state-changing calls the program issues, in program order) together with
a final `Result` (exit via `exit(1)`, successful process replacement by
`execve`, or falling through to `main`'s final `return 1` after a failed
`execve`).
-/

/-- The fields of a struct passwd record that the launchers use. -/
structure Passwd where
  pw_uid : Nat
  pw_gid : Nat
  pw_dir : String
  deriving DecidableEq, Repr

/-- The state-changing OS calls a launcher issues, in program order.
`setgroups` stands for `setgroups(0, NULL)` (clear the supplementary
group list). -/
inductive Event where
  | setgroups
  | setregid (rgid egid : Nat)
  | setreuid (ruid euid : Nat)
  | close (fd : Nat)
  | umask (mask : Nat)
  | chdir (path : String)
  | execve (path : String) (argv : List String) (envp : List String)
  deriving DecidableEq, Repr

/-- How a launcher run ends: `exit(1)`, the image replaced by a
successful `execve`, or `main` returning 1 after a failed `execve`. -/
inductive Result where
  | exited (code : Nat)
  | returned (code : Nat)
  | execed
  deriving DecidableEq, Repr

/-- The operating-system context of one launcher invocation: what
`getpwuid(geteuid())` returns, the ambient environment, the queried
`RLIMIT_NOFILE` hard limit, and whether each fallible call succeeds. -/
structure World where
  pwent : Option Passwd
  env : List (String × String)
  homeOk : Bool
  httpOk : Bool
  httpsOk : Bool
  afterOk : Bool
  setgroupsOk : Bool
  setregidOk : Bool
  setreuidOk : Bool
  rlimOk : Bool
  rlimMax : Nat
  chdirOk : Bool
  execOk : Bool
  deriving DecidableEq, Repr

/-- `getenv`: first binding of the key in the ambient environment. -/
def getenv (e : List (String × String)) (k : String) : Option String :=
  (e.find? (fun p => p.1 == k)).map (fun p => p.2)

/-- `RLIM_INFINITY` on Linux: the all-ones 64-bit `rlim_t`. -/
def RLIM_INFINITY : Nat := 2 ^ 64 - 1

/-- C conversion of an unsigned 64-bit value to a signed 32-bit `int`
(the gcc behaviour: reduce modulo 2^32 and read as two's complement). -/
def toInt32 (n : Nat) : Int :=
  let m : Nat := n % 2 ^ 32
  if m < 2 ^ 31 then (m : Int) else (m : Int) - 2 ^ 32

/-- The `close` events of the loop `for (fd = 3; fd < bound; fd++)`. -/
def closeEvents (bound : Int) : List Event :=
  (List.range' 3 (bound - 3).toNat).map Event.close

/-- The loop bound of the apt-update and newer smart-update variants:
`file_max = (rlim_max == RLIM_INFINITY || rlim_max > 4096) ? 4096 :
rlim_max`. -/
def newCloseBound (r : Nat) : Nat :=
  if r = RLIM_INFINITY ∨ r > 4096 then 4096 else r

namespace SmartOld

/-- The old smart-update variant's helper `inline int min(int a, int b)`. -/
def min (a b : Int) : Int := if a < b then a else b

end SmartOld

/-- The loop bound of the old smart-update variant:
`min(4096, rlp.rlim_max)`, which converts the unsigned 64-bit
`rlim_max` to a signed `int`. -/
def oldCloseBound (r : Nat) : Int := SmartOld.min 4096 (toInt32 r)

/-- C `isspace` in the C locale. -/
def isSpaceC (c : Char) : Bool :=
  c = ' ' || c = '\t' || c = '\n' || c = '\x0b' || c = '\x0c' || c = '\r'

/-- ASCII decimal digit. -/
def isDigitC (c : Char) : Bool := '0' ≤ c && c ≤ '9'

/-- Value of a digit string. -/
def digitsToNat (ds : List Char) : Nat :=
  ds.foldl (fun a c => a * 10 + (c.toNat - 48)) 0

/-- `LONG_MAX` on a 64-bit platform. -/
def LONG_MAX : Int := 2 ^ 63 - 1

/-- `LONG_MIN` on a 64-bit platform. -/
def LONG_MIN : Int := -(2 ^ 63)

/-- Clamping of an out-of-range value, as `strtol` does on overflow. -/
def clampLong (i : Int) : Int :=
  if i > LONG_MAX then LONG_MAX else if i < LONG_MIN then LONG_MIN else i

/-- `strtol(s, &end, 10)`: skip C whitespace, an optional sign, then
decimal digits.  Returns the (clamped) value together with `end - s`,
the number of characters consumed; when no digits are converted the
value is 0 and `end` is reset to `s`, i.e. zero characters consumed. -/
def strtol10 (s : String) : Int × Nat :=
  let cs := s.toList
  let ws := cs.takeWhile isSpaceC
  let rest := cs.drop ws.length
  match rest with
  | '-' :: r =>
    let ds := r.takeWhile isDigitC
    if ds.length = 0 then (0, 0)
    else (clampLong (-(digitsToNat ds : Int)), ws.length + 1 + ds.length)
  | '+' :: r =>
    let ds := r.takeWhile isDigitC
    if ds.length = 0 then (0, 0)
    else (clampLong (digitsToNat ds), ws.length + 1 + ds.length)
  | r =>
    let ds := r.takeWhile isDigitC
    if ds.length = 0 then (0, 0)
    else (clampLong (digitsToNat ds), ws.length + ds.length)

/-- The privilege-transition events of the apt-update and newer
smart-update variants, in their program order: `setgroups(0, NULL)`,
then `setregid`, then `setreuid`. -/
def privEventsNew (pwd : Passwd) : List Event :=
  [Event.setgroups, Event.setregid pwd.pw_gid pwd.pw_gid,
    Event.setreuid pwd.pw_uid pwd.pw_uid]

/-- The privilege-transition events of the old smart-update variant, in
its program order: `setregid`, then `setreuid`, then
`setgroups(0, NULL)`. -/
def privEventsOld (pwd : Passwd) : List Event :=
  [Event.setregid pwd.pw_gid pwd.pw_gid, Event.setreuid pwd.pw_uid pwd.pw_uid,
    Event.setgroups]

/-- The descriptor-close loop followed by `umask(S_IWGRP | S_IWOTH)`
(= 18) and `chdir("/")`. -/
def hygieneEvents (bound : Int) : List Event :=
  closeEvents bound ++ [Event.umask 18, Event.chdir "/"]

/-- The part of the apt-update and newer smart-update `main` after the
environment and argument construction: `setgroups`, `setregid`,
`setreuid`, `getrlimit(RLIMIT_NOFILE)`, the close loop, `umask`,
`chdir("/")`, `execve`, each failure fatal via `exit(1)` except the
final `execve`, whose failure falls through to `return 1`. -/
def privTailNew (w : World) (pwd : Passwd) (path : String)
    (argv envp : List String) : List Event × Result :=
  if !w.setgroupsOk then ([Event.setgroups], Result.exited 1)
  else if !w.setregidOk then
    ([Event.setgroups, Event.setregid pwd.pw_gid pwd.pw_gid], Result.exited 1)
  else if !w.setreuidOk then (privEventsNew pwd, Result.exited 1)
  else if !w.rlimOk then (privEventsNew pwd, Result.exited 1)
  else if !w.chdirOk then
    (privEventsNew pwd ++ hygieneEvents (Int.ofNat (newCloseBound w.rlimMax)),
      Result.exited 1)
  else if w.execOk then
    (privEventsNew pwd ++ hygieneEvents (Int.ofNat (newCloseBound w.rlimMax)) ++
      [Event.execve path argv envp], Result.execed)
  else
    (privEventsNew pwd ++ hygieneEvents (Int.ofNat (newCloseBound w.rlimMax)) ++
      [Event.execve path argv envp], Result.returned 1)

/-- The corresponding tail of the old smart-update `main`: `setregid`,
`setreuid`, `setgroups`, `getrlimit`, the close loop bounded by
`min(4096, rlim_max)`, `umask`, `chdir("/")`, `execve`. -/
def privTailOld (w : World) (pwd : Passwd) (path : String)
    (argv envp : List String) : List Event × Result :=
  if !w.setregidOk then
    ([Event.setregid pwd.pw_gid pwd.pw_gid], Result.exited 1)
  else if !w.setreuidOk then
    ([Event.setregid pwd.pw_gid pwd.pw_gid, Event.setreuid pwd.pw_uid pwd.pw_uid],
      Result.exited 1)
  else if !w.setgroupsOk then (privEventsOld pwd, Result.exited 1)
  else if !w.rlimOk then (privEventsOld pwd, Result.exited 1)
  else if !w.chdirOk then
    (privEventsOld pwd ++ hygieneEvents (oldCloseBound w.rlimMax), Result.exited 1)
  else if w.execOk then
    (privEventsOld pwd ++ hygieneEvents (oldCloseBound w.rlimMax) ++
      [Event.execve path argv envp], Result.execed)
  else
    (privEventsOld pwd ++ hygieneEvents (oldCloseBound w.rlimMax) ++
      [Event.execve path argv envp], Result.returned 1)

namespace AptUpdate

/-- `apt_argv` of apt-update.c. -/
def apt_argv : List String := ["/usr/bin/apt-get", "-q", "update"]

/-- One optional proxy slot of `apt_envp`: absent key contributes
nothing, present key is copied verbatim unless its `asprintf` fails. -/
def proxyEntry (ok : Bool) (key : String) (v : Option String) :
    Option (List String) :=
  match v with
  | none => some []
  | some s => if ok then some [key ++ "=" ++ s] else none

/-- The `apt_envp` array handed to `execve`: fixed `PATH`, `HOME` from
the passwd entry, then `http_proxy` and `https_proxy` copied from the
ambient environment when present.  `none` when an `asprintf` fails. -/
def apt_envp (w : World) (pwd : Passwd) : Option (List String) :=
  if !w.homeOk then none
  else
    match proxyEntry w.httpOk "http_proxy" (getenv w.env "http_proxy") with
    | none => none
    | some h1 =>
      match proxyEntry w.httpsOk "https_proxy" (getenv w.env "https_proxy") with
      | none => none
      | some h2 =>
        some (["PATH=/bin:/usr/bin", "HOME=" ++ pwd.pw_dir] ++ h1 ++ h2)

/-- `main` of src/apt-update/apt-update.c.  Note that it never inspects
its command line. -/
def main (w : World) (_args : List String) : List Event × Result :=
  match w.pwent with
  | none => ([], Result.exited 1)
  | some pwd =>
    match apt_envp w pwd with
    | none => ([], Result.exited 1)
    | some envp => privTailNew w pwd "/usr/bin/apt-get" apt_argv envp

end AptUpdate

/-- The fixed part of `smart_argv` in both smart-update variants. -/
def smart_argv : List String := ["/usr/share/smart/smart", "update"]

namespace SmartOld

/-- `main` of the historical smart-update variant (the first file of
src/unnamed/part_000): `getpwuid` and `HOME` construction, the
`--after` handling that rejects a parsed value of zero, then
`setregid`, `setreuid`, `setgroups`, the close loop bounded by
`min(4096, rlim_max)`, `umask`, `chdir`, `execve`. -/
def main (w : World) (args : List String) : List Event × Result :=
  match w.pwent with
  | none => ([], Result.exited 1)
  | some pwd =>
    if !w.homeOk then ([], Result.exited 1)
    else
      let envp := ["PATH=/bin:/usr/bin", "HOME=" ++ pwd.pw_dir]
      match args with
      | [] => privTailOld w pwd "/usr/share/smart/smart" smart_argv envp
      | [a1, a2] =>
        if a1 = "--after" then
          if (strtol10 a2).1 = 0 then ([], Result.exited 1)
          else if !w.afterOk then ([], Result.exited 1)
          else privTailOld w pwd "/usr/share/smart/smart"
            (smart_argv ++ ["--after=" ++ toString (strtol10 a2).1]) envp
        else ([], Result.exited 1)
      | _ => ([], Result.exited 1)

end SmartOld

namespace SmartNew

/-- `main` of the newer smart-update variant (the second file of
src/unnamed/part_000): as the old one, but `--after` is rejected only
when `strtol` consumes no characters (`end == argv[2]`), and the
privilege transition clears the supplementary groups first and uses the
explicit `RLIM_INFINITY`/4096 bound. -/
def main (w : World) (args : List String) : List Event × Result :=
  match w.pwent with
  | none => ([], Result.exited 1)
  | some pwd =>
    if !w.homeOk then ([], Result.exited 1)
    else
      let envp := ["PATH=/bin:/usr/bin", "HOME=" ++ pwd.pw_dir]
      match args with
      | [] => privTailNew w pwd "/usr/share/smart/smart" smart_argv envp
      | [a1, a2] =>
        if a1 = "--after" then
          if (strtol10 a2).2 = 0 then ([], Result.exited 1)
          else if !w.afterOk then ([], Result.exited 1)
          else privTailNew w pwd "/usr/share/smart/smart"
            (smart_argv ++ ["--after=" ++ toString (strtol10 a2).1]) envp
        else ([], Result.exited 1)
      | _ => ([], Result.exited 1)

end SmartNew

/-- The process credential state the events act on. -/
structure Creds where
  ruid : Nat
  euid : Nat
  rgid : Nat
  egid : Nat
  groups : List Nat
  deriving DecidableEq, Repr

/-- Effect of one event on the credential state; descriptor, umask,
directory and exec events leave the credentials unchanged. -/
def applyEvent (c : Creds) : Event → Creds
  | Event.setgroups => { c with groups := [] }
  | Event.setregid r e => { c with rgid := r, egid := e }
  | Event.setreuid r e => { c with ruid := r, euid := e }
  | _ => c

/-- Credential state after a trace. -/
def applyTrace (c : Creds) (t : List Event) : Creds := t.foldl applyEvent c

/-- Credentials fully transitioned to the resolved account: real and
effective uid and gid equal the passwd entry's, supplementary list
empty. -/
def dropTarget (pwd : Passwd) (c : Creds) : Prop :=
  c.ruid = pwd.pw_uid ∧ c.euid = pwd.pw_uid ∧ c.rgid = pwd.pw_gid ∧
    c.egid = pwd.pw_gid ∧ c.groups = []

/-- The two command-line shapes the spec documents: no arguments, or
exactly `--after` followed by one value. -/
def acceptedShape (args : List String) : Bool :=
  match args with
  | [] => true
  | [a1, _] => a1 == "--after"
  | _ => false

/-- A fixed resolvable account, for concrete runs. -/
def pwdL : Passwd := { pw_uid := 1001, pw_gid := 1001, pw_dir := "/var/lib/landscape" }

/-- A world where every call succeeds; the hard descriptor limit is 3,
so the close loop is empty and traces stay small. -/
def wGood : World :=
  { pwent := some pwdL, env := [], homeOk := true, httpOk := true,
    httpsOk := true, afterOk := true, setgroupsOk := true, setregidOk := true,
    setreuidOk := true, rlimOk := true, rlimMax := 3, chdirOk := true,
    execOk := true }

/-- The world of `wGood` with an unbounded descriptor hard limit. -/
def wInf : World := { wGood with rlimMax := RLIM_INFINITY }

/-- The contribution of one optional proxy variable to the environment:
nothing when absent, the verbatim copy when present. -/
def proxyList (k : String) (v : Option String) : List String :=
  match v with
  | none => []
  | some s => [k ++ "=" ++ s]

/-- The environment the apt-update variant hands to `execve`, as a
function of the ambient environment and the resolved passwd entry. -/
def aptExpectedEnvp (w : World) (pwd : Passwd) : List String :=
  ["PATH=/bin:/usr/bin", "HOME=" ++ pwd.pw_dir] ++
    proxyList "http_proxy" (getenv w.env "http_proxy") ++
    proxyList "https_proxy" (getenv w.env "https_proxy")

/-- The world of `wGood` with no passwd entry for the effective uid. -/
def wNoPw : World := { wGood with pwent := none }

/-- A sample starting credential state (root with a supplementary
group), for witnesses. -/
def cRoot : Creds := { ruid := 0, euid := 0, rgid := 0, egid := 0, groups := [4, 24] }

/-- An ambient environment with one documented and one undocumented
variable. -/
def envSample : List (String × String) :=
  [("http_proxy", "http://proxy:3128"), ("LD_PRELOAD", "/tmp/evil.so")]

/-- The sample environment with the undocumented variable removed. -/
def envSample2 : List (String × String) := [("http_proxy", "http://proxy:3128")]

/-- The world of `wGood` running under `envSample`. -/
def wEnv : World := { wGood with env := envSample }

/-- The C9 property of one run: a `returned` result carries code 1,
happens only when `execve` failed, and only after the trace ended in an
`execve` event; a successful exec also ends the trace at `execve`; and
every run ends in `exit(1)`, `return 1`, or a successful exec. -/
def execErrorOnly (r : List Event × Result) (execOk : Bool) : Prop :=
  (∀ c, r.2 = Result.returned c → c = 1 ∧ execOk = false ∧
    ∃ t p a e, r.1 = t ++ [Event.execve p a e]) ∧
  (r.2 = Result.execed → execOk = true ∧
    ∃ t p a e, r.1 = t ++ [Event.execve p a e]) ∧
  (r.2 = Result.exited 1 ∨ r.2 = Result.returned 1 ∨ r.2 = Result.execed)

/-- The world of `wGood` whose `execve` fails. -/
def wNoExec : World := { wGood with execOk := false }

example : SmartNew.main wGood ["--after", "5x"] =
    ([Event.setgroups, Event.setregid 1001 1001, Event.setreuid 1001 1001,
      Event.umask 18, Event.chdir "/",
      Event.execve "/usr/share/smart/smart"
        ["/usr/share/smart/smart", "update", "--after=5"]
        ["PATH=/bin:/usr/bin", "HOME=/var/lib/landscape"]], Result.execed) := by
  decide

example : SmartOld.main wGood [] =
    ([Event.setregid 1001 1001, Event.setreuid 1001 1001, Event.setgroups,
      Event.umask 18, Event.chdir "/",
      Event.execve "/usr/share/smart/smart" ["/usr/share/smart/smart", "update"]
        ["PATH=/bin:/usr/bin", "HOME=/var/lib/landscape"]], Result.execed) := by
  decide

example : SmartOld.main wGood ["--after", "0"] = ([], Result.exited 1) := by decide

example : strtol10 "  -42abc" = (-42, 5) := by decide

/-! ## Basic trace lemmas -/

theorem applyTrace_append (c : Creds) (l1 l2 : List Event) :
    applyTrace c (l1 ++ l2) = applyTrace (applyTrace c l1) l2 := by
  simp [applyTrace]

theorem applyTrace_closeEvents (c : Creds) (b : Int) :
    applyTrace c (closeEvents b) = c := by
  unfold closeEvents
  generalize List.range' 3 (b - 3).toNat = l
  induction l generalizing c with
  | nil => rfl
  | cons a t ih => simpa [applyTrace, applyEvent] using ih c

theorem applyTrace_hygiene (c : Creds) (b : Int) :
    applyTrace c (hygieneEvents b) = c := by
  unfold hygieneEvents
  rw [applyTrace_append, applyTrace_closeEvents]
  rfl

theorem execve_not_mem_closeEvents (p : String) (a e : List String) (b : Int) :
    Event.execve p a e ∉ closeEvents b := by
  unfold closeEvents
  intro h
  rcases List.mem_map.mp h with ⟨fd, _, hEq⟩
  simp at hEq

/-! ## Claim theorems -/

/-- C1.  The claim fails on the historical smart-update variant: on a
fully successful run its trace drops the primary gid and uid first and
clears the supplementary groups only afterwards, while the apt-update
and newer smart-update variants clear the supplementary groups first. -/
theorem claim_c1_old_variant_order :
    (SmartOld.main wGood []).1 =
      [Event.setregid 1001 1001, Event.setreuid 1001 1001, Event.setgroups,
        Event.umask 18, Event.chdir "/",
        Event.execve "/usr/share/smart/smart" ["/usr/share/smart/smart", "update"]
          ["PATH=/bin:/usr/bin", "HOME=/var/lib/landscape"]] ∧
    (SmartOld.main wGood []).2 = Result.execed ∧
    (SmartOld.main wGood []).1.take 3 = privEventsOld pwdL ∧
    (SmartNew.main wGood []).1.take 3 = privEventsNew pwdL ∧
    (AptUpdate.main wGood []).1.take 3 = privEventsNew pwdL := by
  refine ⟨by decide, by decide, by decide, by decide, by decide⟩

/-- C5.  The claim fails on the historical smart-update variant: with
the hard limit reported as `RLIM_INFINITY`, `min(4096, rlim_max)`
converts the unsigned 64-bit limit to the `int` -1, so the close loop
runs zero times instead of closing descriptors 3 to 4095; the newer
variants' explicit check does use the bound 4096. -/
theorem claim_c5_old_inf_bound :
    oldCloseBound RLIM_INFINITY = -1 ∧
    newCloseBound RLIM_INFINITY = 4096 ∧
    closeEvents (oldCloseBound RLIM_INFINITY) = [] ∧
    (SmartOld.main wInf []).1 =
      [Event.setregid 1001 1001, Event.setreuid 1001 1001, Event.setgroups,
        Event.umask 18, Event.chdir "/",
        Event.execve "/usr/share/smart/smart" ["/usr/share/smart/smart", "update"]
          ["PATH=/bin:/usr/bin", "HOME=/var/lib/landscape"]] ∧
    (SmartOld.main wInf []).2 = Result.execed := by
  refine ⟨by decide, by decide, by decide, by decide, by decide⟩

/-- C2, counterexample.  The apt-update variant does not validate its
command line at all: on the unsupported command line `["foo"]` it still
performs the whole privilege transition and execs, instead of exiting
with status 1. -/
theorem claim_c2_apt_ignores_args :
    acceptedShape ["foo"] = false ∧
    (AptUpdate.main wGood ["foo"]).2 = Result.execed ∧
    Event.setgroups ∈ (AptUpdate.main wGood ["foo"]).1 ∧
    Event.execve "/usr/bin/apt-get" AptUpdate.apt_argv
        ["PATH=/bin:/usr/bin", "HOME=/var/lib/landscape"] ∈
      (AptUpdate.main wGood ["foo"]).1 := by
  refine ⟨by decide, by decide, by decide, by decide⟩

/-- C2, amended.  Both smart-update variants exit with status 1 on any
command line that is neither empty nor exactly `--after` plus one
value, with an empty trace: no privilege transition, no descriptor
change, no exec.  (The apt-update variant ignores its command line.) -/
theorem claim_c2_smart_reject (w : World) (args : List String)
    (h : acceptedShape args = false) :
    SmartOld.main w args = ([], Result.exited 1) ∧
    SmartNew.main w args = ([], Result.exited 1) := by
  rcases hp : w.pwent with _ | pwd
  · exact ⟨by simp [SmartOld.main, hp], by simp [SmartNew.main, hp]⟩
  cases hh : w.homeOk
  · exact ⟨by simp [SmartOld.main, hp, hh], by simp [SmartNew.main, hp, hh]⟩
  match args with
  | [] => simp [acceptedShape] at h
  | [a1] =>
    exact ⟨by simp [SmartOld.main, hp, hh], by simp [SmartNew.main, hp, hh]⟩
  | [a1, a2] =>
    have ha : ¬ a1 = "--after" := by simpa [acceptedShape] using h
    exact ⟨by simp [SmartOld.main, hp, hh, ha], by simp [SmartNew.main, hp, hh, ha]⟩
  | a1 :: a2 :: a3 :: rest =>
    exact ⟨by simp [SmartOld.main, hp, hh], by simp [SmartNew.main, hp, hh]⟩

theorem claim_c2_smart_reject_witness :
    acceptedShape ["x"] = false ∧
    (SmartOld.main wGood ["x"] = ([], Result.exited 1) ∧
      SmartNew.main wGood ["x"] = ([], Result.exited 1)) :=
  ⟨by decide, claim_c2_smart_reject wGood ["x"] (by decide)⟩

/-! ## Reduction of the accepted command lines on all-successful worlds -/

theorem privTailNew_ok (w : World) (pwd : Passwd) (path : String)
    (argv envp : List String) (hsg : w.setgroupsOk = true)
    (hrg : w.setregidOk = true) (hru : w.setreuidOk = true)
    (hrl : w.rlimOk = true) (hcd : w.chdirOk = true) (hex : w.execOk = true) :
    privTailNew w pwd path argv envp =
      (privEventsNew pwd ++ hygieneEvents (Int.ofNat (newCloseBound w.rlimMax)) ++
        [Event.execve path argv envp], Result.execed) := by
  simp [privTailNew, hsg, hrg, hru, hrl, hcd, hex]

theorem privTailOld_ok (w : World) (pwd : Passwd) (path : String)
    (argv envp : List String) (hsg : w.setgroupsOk = true)
    (hrg : w.setregidOk = true) (hru : w.setreuidOk = true)
    (hrl : w.rlimOk = true) (hcd : w.chdirOk = true) (hex : w.execOk = true) :
    privTailOld w pwd path argv envp =
      (privEventsOld pwd ++ hygieneEvents (oldCloseBound w.rlimMax) ++
        [Event.execve path argv envp], Result.execed) := by
  simp [privTailOld, hsg, hrg, hru, hrl, hcd, hex]

theorem smartNewMain_after (w : World) (pwd : Passwd) (s : String)
    (hpw : w.pwent = some pwd) (hh : w.homeOk = true) (haf : w.afterOk = true)
    (hs : (strtol10 s).2 ≠ 0) :
    SmartNew.main w ["--after", s] =
      privTailNew w pwd "/usr/share/smart/smart"
        (smart_argv ++ ["--after=" ++ toString (strtol10 s).1])
        ["PATH=/bin:/usr/bin", "HOME=" ++ pwd.pw_dir] := by
  simp [SmartNew.main, hpw, hh, haf, hs]

theorem smartOldMain_after (w : World) (pwd : Passwd) (s : String)
    (hpw : w.pwent = some pwd) (hh : w.homeOk = true) (haf : w.afterOk = true)
    (hs : (strtol10 s).1 ≠ 0) :
    SmartOld.main w ["--after", s] =
      privTailOld w pwd "/usr/share/smart/smart"
        (smart_argv ++ ["--after=" ++ toString (strtol10 s).1])
        ["PATH=/bin:/usr/bin", "HOME=" ++ pwd.pw_dir] := by
  simp [SmartOld.main, hpw, hh, haf, hs]

theorem mem_exec_tail (pre : List Event) (p : String) (a e : List String) :
    Event.execve p a e ∈ pre ++ [Event.execve p a e] := by simp

/-- C6.  On `["--after", "300"]` both smart-update variants exec with
the extra argument `--after=300`; on `["--after", "0"]` the historical
variant exits with status 1 (its `interval == 0` check rejects the
parsed zero) while the newer variant accepts it and execs with
`--after=0`. -/
theorem claim_c6_zero_interval (w : World) (pwd : Passwd)
    (hpw : w.pwent = some pwd) (hh : w.homeOk = true) (haf : w.afterOk = true)
    (hsg : w.setgroupsOk = true) (hrg : w.setregidOk = true)
    (hru : w.setreuidOk = true) (hrl : w.rlimOk = true)
    (hcd : w.chdirOk = true) (hex : w.execOk = true) :
    ((SmartOld.main w ["--after", "300"]).2 = Result.execed ∧
      Event.execve "/usr/share/smart/smart"
        ["/usr/share/smart/smart", "update", "--after=300"]
        ["PATH=/bin:/usr/bin", "HOME=" ++ pwd.pw_dir] ∈
          (SmartOld.main w ["--after", "300"]).1) ∧
    ((SmartNew.main w ["--after", "300"]).2 = Result.execed ∧
      Event.execve "/usr/share/smart/smart"
        ["/usr/share/smart/smart", "update", "--after=300"]
        ["PATH=/bin:/usr/bin", "HOME=" ++ pwd.pw_dir] ∈
          (SmartNew.main w ["--after", "300"]).1) ∧
    SmartOld.main w ["--after", "0"] = ([], Result.exited 1) ∧
    ((SmartNew.main w ["--after", "0"]).2 = Result.execed ∧
      Event.execve "/usr/share/smart/smart"
        ["/usr/share/smart/smart", "update", "--after=0"]
        ["PATH=/bin:/usr/bin", "HOME=" ++ pwd.pw_dir] ∈
          (SmartNew.main w ["--after", "0"]).1) := by
  have hv300 : smart_argv ++ ["--after=" ++ toString (strtol10 "300").1] =
      ["/usr/share/smart/smart", "update", "--after=300"] := by decide
  have hv0 : smart_argv ++ ["--after=" ++ toString (strtol10 "0").1] =
      ["/usr/share/smart/smart", "update", "--after=0"] := by decide
  have ho := smartOldMain_after w pwd "300" hpw hh haf (by decide)
  have hn := smartNewMain_after w pwd "300" hpw hh haf (by decide)
  have hn0 := smartNewMain_after w pwd "0" hpw hh haf (by decide)
  rw [privTailOld_ok w pwd _ _ _ hsg hrg hru hrl hcd hex, hv300] at ho
  rw [privTailNew_ok w pwd _ _ _ hsg hrg hru hrl hcd hex, hv300] at hn
  rw [privTailNew_ok w pwd _ _ _ hsg hrg hru hrl hcd hex, hv0] at hn0
  refine ⟨⟨by rw [ho], ?_⟩, ⟨by rw [hn], ?_⟩, ?_, by rw [hn0], ?_⟩
  · rw [ho]; exact mem_exec_tail _ _ _ _
  · rw [hn]; exact mem_exec_tail _ _ _ _
  · have hz : (strtol10 "0").1 = 0 := by decide
    simp [SmartOld.main, hpw, hh, hz]
  · rw [hn0]; exact mem_exec_tail _ _ _ _

theorem claim_c6_zero_interval_witness :
    wGood.pwent = some pwdL ∧
    (SmartOld.main wGood ["--after", "300"]).2 = Result.execed ∧
    SmartOld.main wGood ["--after", "0"] = ([], Result.exited 1) ∧
    (SmartNew.main wGood ["--after", "0"]).2 = Result.execed :=
  ⟨by decide,
    (claim_c6_zero_interval wGood pwdL (by decide) (by decide) (by decide)
      (by decide) (by decide) (by decide) (by decide) (by decide) (by decide)).1.1,
    (claim_c6_zero_interval wGood pwdL (by decide) (by decide) (by decide)
      (by decide) (by decide) (by decide) (by decide) (by decide) (by decide)).2.2.1,
    (claim_c6_zero_interval wGood pwdL (by decide) (by decide) (by decide)
      (by decide) (by decide) (by decide) (by decide) (by decide) (by decide)).2.2.2.1⟩

/-- C7, counterexample.  The accepted value "05" is not forwarded
character-for-character: the launcher forwards the decimal rendering of
the parsed `long`, here `--after=5`, not `--after=05`. -/
theorem claim_c7_not_verbatim :
    (SmartNew.main wGood ["--after", "05"]).1 =
      [Event.setgroups, Event.setregid 1001 1001, Event.setreuid 1001 1001,
        Event.umask 18, Event.chdir "/",
        Event.execve "/usr/share/smart/smart"
          ["/usr/share/smart/smart", "update", "--after=5"]
          ["PATH=/bin:/usr/bin", "HOME=/var/lib/landscape"]] ∧
    (SmartNew.main wGood ["--after", "05"]).2 = Result.execed ∧
    "--after=5" ≠ "--after=05" := by
  refine ⟨by decide, by decide, by decide⟩

/-- C7, amended.  On every accepted `["--after", s]` both variants
forward the single extra argument `--after=<v>` where `<v>` is the
decimal rendering of the `strtol`-parsed value of `s`; this equals the
caller's text exactly when `s` is already that canonical rendering. -/
theorem claim_c7_forward_parsed (w : World) (pwd : Passwd) (s : String)
    (hpw : w.pwent = some pwd) (hh : w.homeOk = true) (haf : w.afterOk = true)
    (hsg : w.setgroupsOk = true) (hrg : w.setregidOk = true)
    (hru : w.setreuidOk = true) (hrl : w.rlimOk = true)
    (hcd : w.chdirOk = true) (hex : w.execOk = true) :
    ((strtol10 s).1 ≠ 0 →
      Event.execve "/usr/share/smart/smart"
        (smart_argv ++ ["--after=" ++ toString (strtol10 s).1])
        ["PATH=/bin:/usr/bin", "HOME=" ++ pwd.pw_dir] ∈
          (SmartOld.main w ["--after", s]).1) ∧
    ((strtol10 s).2 ≠ 0 →
      Event.execve "/usr/share/smart/smart"
        (smart_argv ++ ["--after=" ++ toString (strtol10 s).1])
        ["PATH=/bin:/usr/bin", "HOME=" ++ pwd.pw_dir] ∈
          (SmartNew.main w ["--after", s]).1) ∧
    (s = toString (strtol10 s).1 →
      "--after=" ++ toString (strtol10 s).1 = "--after=" ++ s) := by
  refine ⟨?_, ?_, ?_⟩
  · intro hs
    rw [smartOldMain_after w pwd s hpw hh haf hs,
      privTailOld_ok w pwd _ _ _ hsg hrg hru hrl hcd hex]
    exact mem_exec_tail _ _ _ _
  · intro hs
    rw [smartNewMain_after w pwd s hpw hh haf hs,
      privTailNew_ok w pwd _ _ _ hsg hrg hru hrl hcd hex]
    exact mem_exec_tail _ _ _ _
  · intro hc
    rw [← hc]

theorem claim_c7_forward_parsed_witness :
    (strtol10 "300").1 ≠ 0 ∧
    Event.execve "/usr/share/smart/smart"
      (smart_argv ++ ["--after=" ++ toString (strtol10 "300").1])
      ["PATH=/bin:/usr/bin", "HOME=" ++ pwdL.pw_dir] ∈
        (SmartOld.main wGood ["--after", "300"]).1 :=
  ⟨by decide,
    (claim_c7_forward_parsed wGood pwdL "300" (by decide) (by decide) (by decide)
      (by decide) (by decide) (by decide) (by decide) (by decide) (by decide)).1
      (by decide)⟩

/-- C10.  The newer smart-update variant rejects an `--after` value
exactly when `strtol` consumes no characters; a value with a numeric
prefix and trailing junk is accepted and forwarded as the parsed
number. -/
theorem claim_c10_prefix_accepted (w : World) (pwd : Passwd) (s : String)
    (hpw : w.pwent = some pwd) (hh : w.homeOk = true) (haf : w.afterOk = true)
    (hsg : w.setgroupsOk = true) (hrg : w.setregidOk = true)
    (hru : w.setreuidOk = true) (hrl : w.rlimOk = true)
    (hcd : w.chdirOk = true) (hex : w.execOk = true) :
    ((strtol10 s).2 = 0 → SmartNew.main w ["--after", s] = ([], Result.exited 1)) ∧
    ((strtol10 s).2 ≠ 0 →
      (SmartNew.main w ["--after", s]).2 = Result.execed ∧
      Event.execve "/usr/share/smart/smart"
        (smart_argv ++ ["--after=" ++ toString (strtol10 s).1])
        ["PATH=/bin:/usr/bin", "HOME=" ++ pwd.pw_dir] ∈
          (SmartNew.main w ["--after", s]).1) := by
  refine ⟨?_, ?_⟩
  · intro hs
    simp [SmartNew.main, hpw, hh, hs]
  · intro hs
    rw [smartNewMain_after w pwd s hpw hh haf hs,
      privTailNew_ok w pwd _ _ _ hsg hrg hru hrl hcd hex]
    exact ⟨rfl, mem_exec_tail _ _ _ _⟩

theorem claim_c10_prefix_accepted_witness :
    (strtol10 "5x").2 ≠ 0 ∧
    ((SmartNew.main wGood ["--after", "5x"]).2 = Result.execed ∧
      Event.execve "/usr/share/smart/smart"
        (smart_argv ++ ["--after=" ++ toString (strtol10 "5x").1])
        ["PATH=/bin:/usr/bin", "HOME=" ++ pwdL.pw_dir] ∈
          (SmartNew.main wGood ["--after", "5x"]).1) :=
  ⟨by decide,
    (claim_c10_prefix_accepted wGood pwdL "5x" (by decide) (by decide) (by decide)
      (by decide) (by decide) (by decide) (by decide) (by decide) (by decide)).2
      (by decide)⟩

/-! ## The constructed environment -/

theorem proxyEntry_eq (ok : Bool) (k : String) (v : Option String)
    (l : List String) (h : AptUpdate.proxyEntry ok k v = some l) :
    l = proxyList k v := by
  cases v with
  | none =>
    simp [AptUpdate.proxyEntry] at h
    simp [proxyList, h]
  | some s =>
    cases ok with
    | false => simp [AptUpdate.proxyEntry] at h
    | true =>
      simp [AptUpdate.proxyEntry] at h
      simp [proxyList, h]

theorem apt_envp_eq (w : World) (pwd : Passwd) (L : List String)
    (h : AptUpdate.apt_envp w pwd = some L) : L = aptExpectedEnvp w pwd := by
  unfold AptUpdate.apt_envp at h
  cases hhm : w.homeOk
  · simp [hhm] at h
  · rcases h1 : AptUpdate.proxyEntry w.httpOk "http_proxy" (getenv w.env "http_proxy")
      with _ | l1
    · simp [hhm, h1] at h
    · rcases h2 : AptUpdate.proxyEntry w.httpsOk "https_proxy" (getenv w.env "https_proxy")
        with _ | l2
      · simp [hhm, h1, h2] at h
      · simp [hhm, h1, h2] at h
        rw [← h, aptExpectedEnvp, proxyEntry_eq _ _ _ _ h1, proxyEntry_eq _ _ _ _ h2]
        simp

theorem privTailNew_execve_args (w : World) (pwd : Passwd) (path : String)
    (argv envp : List String) (p : String) (a e : List String)
    (h : Event.execve p a e ∈ (privTailNew w pwd path argv envp).1) :
    p = path ∧ a = argv ∧ e = envp := by
  unfold privTailNew at h
  split_ifs at h
  · simp at h
  · simp at h
  · simp [privEventsNew] at h
  · simp [privEventsNew] at h
  · simp [privEventsNew, hygieneEvents, execve_not_mem_closeEvents] at h
  · simp [privEventsNew, hygieneEvents, execve_not_mem_closeEvents] at h
    exact h
  · simp [privEventsNew, hygieneEvents, execve_not_mem_closeEvents] at h
    exact h

theorem aptMain_cong (w1 w2 : World) (args : List String)
    (hpw : w1.pwent = w2.pwent) (hhm : w1.homeOk = w2.homeOk)
    (hh1 : w1.httpOk = w2.httpOk) (hh2 : w1.httpsOk = w2.httpsOk)
    (hsg : w1.setgroupsOk = w2.setgroupsOk) (hrg : w1.setregidOk = w2.setregidOk)
    (hru : w1.setreuidOk = w2.setreuidOk) (hrl : w1.rlimOk = w2.rlimOk)
    (hrm : w1.rlimMax = w2.rlimMax) (hcd : w1.chdirOk = w2.chdirOk)
    (hex : w1.execOk = w2.execOk)
    (hhp : getenv w1.env "http_proxy" = getenv w2.env "http_proxy")
    (hhs : getenv w1.env "https_proxy" = getenv w2.env "https_proxy") :
    AptUpdate.main w1 args = AptUpdate.main w2 args := by
  simp only [AptUpdate.main, AptUpdate.apt_envp, privTailNew,
    hpw, hhm, hh1, hh2, hsg, hrg, hru, hrl, hrm, hcd, hex, hhp, hhs]

theorem smartNewMain_cong (w1 w2 : World) (args : List String)
    (hpw : w1.pwent = w2.pwent) (hhm : w1.homeOk = w2.homeOk)
    (haf : w1.afterOk = w2.afterOk)
    (hsg : w1.setgroupsOk = w2.setgroupsOk) (hrg : w1.setregidOk = w2.setregidOk)
    (hru : w1.setreuidOk = w2.setreuidOk) (hrl : w1.rlimOk = w2.rlimOk)
    (hrm : w1.rlimMax = w2.rlimMax) (hcd : w1.chdirOk = w2.chdirOk)
    (hex : w1.execOk = w2.execOk) :
    SmartNew.main w1 args = SmartNew.main w2 args := by
  simp only [SmartNew.main, privTailNew,
    hpw, hhm, haf, hsg, hrg, hru, hrl, hrm, hcd, hex]

theorem aptExpectedEnvp_keys (w : World) (pwd : Passwd) (x : String)
    (hx : x ∈ aptExpectedEnvp w pwd) :
    x = "PATH=/bin:/usr/bin" ∨ x = "HOME=" ++ pwd.pw_dir ∨
      (∃ v, getenv w.env "http_proxy" = some v ∧ x = "http_proxy=" ++ v) ∨
      (∃ v, getenv w.env "https_proxy" = some v ∧ x = "https_proxy=" ++ v) := by
  unfold aptExpectedEnvp at hx
  rcases hh1 : getenv w.env "http_proxy" with _ | v1
  · rcases hh2 : getenv w.env "https_proxy" with _ | v2
    · rw [hh1, hh2] at hx; simp [proxyList] at hx
      rcases hx with rfl | rfl
      · exact Or.inl rfl
      · exact Or.inr (Or.inl rfl)
    · rw [hh1, hh2] at hx; simp [proxyList] at hx
      rcases hx with rfl | rfl | rfl
      · exact Or.inl rfl
      · exact Or.inr (Or.inl rfl)
      · exact Or.inr (Or.inr (Or.inr ⟨v2, rfl, rfl⟩))
  · rcases hh2 : getenv w.env "https_proxy" with _ | v2
    · rw [hh1, hh2] at hx; simp [proxyList] at hx
      rcases hx with rfl | rfl | rfl
      · exact Or.inl rfl
      · exact Or.inr (Or.inl rfl)
      · exact Or.inr (Or.inr (Or.inl ⟨v1, rfl, rfl⟩))
    · rw [hh1, hh2] at hx; simp [proxyList] at hx
      rcases hx with rfl | rfl | rfl | rfl
      · exact Or.inl rfl
      · exact Or.inr (Or.inl rfl)
      · exact Or.inr (Or.inr (Or.inl ⟨v1, rfl, rfl⟩))
      · exact Or.inr (Or.inr (Or.inr ⟨v2, rfl, rfl⟩))

/-- C8.  When the identity lookup returns no passwd record, all three
launcher variants exit with status 1 with an empty trace: no privilege
transition, no descriptor closed, and the credential state is exactly
the starting one. -/
theorem claim_c8_no_pwent (w : World) (args : List String) (c0 : Creds)
    (h : w.pwent = none) :
    AptUpdate.main w args = ([], Result.exited 1) ∧
    SmartOld.main w args = ([], Result.exited 1) ∧
    SmartNew.main w args = ([], Result.exited 1) ∧
    applyTrace c0 (AptUpdate.main w args).1 = c0 ∧
    applyTrace c0 (SmartOld.main w args).1 = c0 ∧
    applyTrace c0 (SmartNew.main w args).1 = c0 := by
  have h1 : AptUpdate.main w args = ([], Result.exited 1) := by
    simp [AptUpdate.main, h]
  have h2 : SmartOld.main w args = ([], Result.exited 1) := by
    simp [SmartOld.main, h]
  have h3 : SmartNew.main w args = ([], Result.exited 1) := by
    simp [SmartNew.main, h]
  exact ⟨h1, h2, h3, by rw [h1]; rfl, by rw [h2]; rfl, by rw [h3]; rfl⟩

/-! ## Credential effect of the full privilege tails -/

theorem dropTarget_privNew (c0 : Creds) (pwd : Passwd) (b : Int) (p : String)
    (a e : List String) :
    dropTarget pwd
      (applyTrace c0 (privEventsNew pwd ++ hygieneEvents b ++ [Event.execve p a e])) := by
  rw [applyTrace_append, applyTrace_append, applyTrace_hygiene]
  simp [applyTrace, applyEvent, privEventsNew, dropTarget]

theorem dropTarget_privOld (c0 : Creds) (pwd : Passwd) (b : Int) (p : String)
    (a e : List String) :
    dropTarget pwd
      (applyTrace c0 (privEventsOld pwd ++ hygieneEvents b ++ [Event.execve p a e])) := by
  rw [applyTrace_append, applyTrace_append, applyTrace_hygiene]
  simp [applyTrace, applyEvent, privEventsOld, dropTarget]

theorem privTailNew_drop (w : World) (pwd : Passwd) (path : String)
    (argv envp : List String) (c0 : Creds) (p : String) (a e : List String)
    (h : Event.execve p a e ∈ (privTailNew w pwd path argv envp).1) :
    dropTarget pwd (applyTrace c0 (privTailNew w pwd path argv envp).1) := by
  unfold privTailNew at h ⊢
  split_ifs at h ⊢ with h1 h2 h3 h4 h5 h6
  · simp at h
  · simp at h
  · simp [privEventsNew] at h
  · simp [privEventsNew] at h
  · simp [privEventsNew, hygieneEvents, execve_not_mem_closeEvents] at h
  · exact dropTarget_privNew c0 pwd _ path argv envp
  · exact dropTarget_privNew c0 pwd _ path argv envp

theorem privTailOld_drop (w : World) (pwd : Passwd) (path : String)
    (argv envp : List String) (c0 : Creds) (p : String) (a e : List String)
    (h : Event.execve p a e ∈ (privTailOld w pwd path argv envp).1) :
    dropTarget pwd (applyTrace c0 (privTailOld w pwd path argv envp).1) := by
  unfold privTailOld at h ⊢
  split_ifs at h ⊢ with h1 h2 h3 h4 h5 h6
  · simp at h
  · simp at h
  · simp [privEventsOld] at h
  · simp [privEventsOld] at h
  · simp [privEventsOld, hygieneEvents, execve_not_mem_closeEvents] at h
  · exact dropTarget_privOld c0 pwd _ path argv envp
  · exact dropTarget_privOld c0 pwd _ path argv envp

/-! ## Shape of each variant's `main`: exit 1 with empty trace, or one
of the privilege tails -/

theorem aptMain_shape (w : World) (args : List String) :
    AptUpdate.main w args = ([], Result.exited 1) ∨
      ∃ pwd envp, w.pwent = some pwd ∧ AptUpdate.apt_envp w pwd = some envp ∧
        AptUpdate.main w args =
          privTailNew w pwd "/usr/bin/apt-get" AptUpdate.apt_argv envp := by
  rcases hp : w.pwent with _ | pwd
  · exact Or.inl (by simp [AptUpdate.main, hp])
  rcases he : AptUpdate.apt_envp w pwd with _ | envp
  · exact Or.inl (by simp [AptUpdate.main, hp, he])
  · exact Or.inr ⟨pwd, envp, rfl, he, by simp [AptUpdate.main, hp, he]⟩

theorem smartNewMain_shape (w : World) (args : List String) :
    SmartNew.main w args = ([], Result.exited 1) ∨
      ∃ pwd argv, w.pwent = some pwd ∧
        SmartNew.main w args =
          privTailNew w pwd "/usr/share/smart/smart" argv
            ["PATH=/bin:/usr/bin", "HOME=" ++ pwd.pw_dir] := by
  rcases hp : w.pwent with _ | pwd
  · exact Or.inl (by simp [SmartNew.main, hp])
  cases hh : w.homeOk
  · exact Or.inl (by simp [SmartNew.main, hp, hh])
  match args with
  | [] => exact Or.inr ⟨pwd, smart_argv, rfl, by simp [SmartNew.main, hp, hh]⟩
  | [a1] => exact Or.inl (by simp [SmartNew.main, hp, hh])
  | [a1, a2] =>
    by_cases ha : a1 = "--after"
    · by_cases hs : (strtol10 a2).2 = 0
      · exact Or.inl (by simp [SmartNew.main, hp, hh, ha, hs])
      · cases haf : w.afterOk
        · exact Or.inl (by simp [SmartNew.main, hp, hh, ha, hs, haf])
        · exact Or.inr ⟨pwd, smart_argv ++ ["--after=" ++ toString (strtol10 a2).1],
            rfl, by simp [SmartNew.main, hp, hh, ha, hs, haf]⟩
    · exact Or.inl (by simp [SmartNew.main, hp, hh, ha])
  | a1 :: a2 :: a3 :: rest => exact Or.inl (by simp [SmartNew.main, hp, hh])

theorem smartOldMain_shape (w : World) (args : List String) :
    SmartOld.main w args = ([], Result.exited 1) ∨
      ∃ pwd argv, w.pwent = some pwd ∧
        SmartOld.main w args =
          privTailOld w pwd "/usr/share/smart/smart" argv
            ["PATH=/bin:/usr/bin", "HOME=" ++ pwd.pw_dir] := by
  rcases hp : w.pwent with _ | pwd
  · exact Or.inl (by simp [SmartOld.main, hp])
  cases hh : w.homeOk
  · exact Or.inl (by simp [SmartOld.main, hp, hh])
  match args with
  | [] => exact Or.inr ⟨pwd, smart_argv, rfl, by simp [SmartOld.main, hp, hh]⟩
  | [a1] => exact Or.inl (by simp [SmartOld.main, hp, hh])
  | [a1, a2] =>
    by_cases ha : a1 = "--after"
    · by_cases hs : (strtol10 a2).1 = 0
      · exact Or.inl (by simp [SmartOld.main, hp, hh, ha, hs])
      · cases haf : w.afterOk
        · exact Or.inl (by simp [SmartOld.main, hp, hh, ha, hs, haf])
        · exact Or.inr ⟨pwd, smart_argv ++ ["--after=" ++ toString (strtol10 a2).1],
            rfl, by simp [SmartOld.main, hp, hh, ha, hs, haf]⟩
    · exact Or.inl (by simp [SmartOld.main, hp, hh, ha])
  | a1 :: a2 :: a3 :: rest => exact Or.inl (by simp [SmartOld.main, hp, hh])

/-- C4.  In each variant, whenever the run reaches `execve` (so every
privilege-transition call succeeded), the credential state obtained by
applying the trace to any starting credentials has real and effective
uid equal to the passwd entry's uid, real and effective gid equal to
its gid, and an empty supplementary group list. -/
theorem claim_c4_creds_at_exec (w : World) (args : List String) (pwd : Passwd)
    (c0 : Creds) (hpw : w.pwent = some pwd) :
    (∀ p a e, Event.execve p a e ∈ (AptUpdate.main w args).1 →
      dropTarget pwd (applyTrace c0 (AptUpdate.main w args).1)) ∧
    (∀ p a e, Event.execve p a e ∈ (SmartOld.main w args).1 →
      dropTarget pwd (applyTrace c0 (SmartOld.main w args).1)) ∧
    (∀ p a e, Event.execve p a e ∈ (SmartNew.main w args).1 →
      dropTarget pwd (applyTrace c0 (SmartNew.main w args).1)) := by
  refine ⟨?_, ?_, ?_⟩
  · intro p a e hmem
    rcases aptMain_shape w args with hsh | ⟨pwd', envp, hp', _, hsh⟩
    · rw [hsh] at hmem; simp at hmem
    · have hpe : pwd = pwd' := by
        rw [hpw] at hp'; exact Option.some.inj hp'
      subst hpe
      rw [hsh] at hmem ⊢
      exact privTailNew_drop w pwd _ _ _ c0 p a e hmem
  · intro p a e hmem
    rcases smartOldMain_shape w args with hsh | ⟨pwd', argv, hp', hsh⟩
    · rw [hsh] at hmem; simp at hmem
    · have hpe : pwd = pwd' := by
        rw [hpw] at hp'; exact Option.some.inj hp'
      subst hpe
      rw [hsh] at hmem ⊢
      exact privTailOld_drop w pwd _ _ _ c0 p a e hmem
  · intro p a e hmem
    rcases smartNewMain_shape w args with hsh | ⟨pwd', argv, hp', hsh⟩
    · rw [hsh] at hmem; simp at hmem
    · have hpe : pwd = pwd' := by
        rw [hpw] at hp'; exact Option.some.inj hp'
      subst hpe
      rw [hsh] at hmem ⊢
      exact privTailNew_drop w pwd _ _ _ c0 p a e hmem

theorem claim_c4_creds_at_exec_witness :
    dropTarget pwdL (applyTrace cRoot (AptUpdate.main wGood []).1) :=
  (claim_c4_creds_at_exec wGood [] pwdL cRoot (by decide)).1 "/usr/bin/apt-get"
    AptUpdate.apt_argv ["PATH=/bin:/usr/bin", "HOME=/var/lib/landscape"] (by decide)

/-- C3.  The environment handed to `execve` is exactly the documented
one: in the apt-update variant the fixed `PATH`, a `HOME` from the
passwd entry, and the two proxy variables copied verbatim when present
in the ambient environment; in the newer smart-update variant the fixed
`PATH` and `HOME` only.  Every entry is one of the documented keys, and
two runs whose ambient environments agree on the two proxy keys (in
particular, runs differing only in undocumented ambient variables)
behave identically. -/
theorem claim_c3_env_minimal (w : World) (e2 : List (String × String))
    (args : List String) (pwd : Passwd) (hpw : w.pwent = some pwd)
    (hhp : getenv e2 "http_proxy" = getenv w.env "http_proxy")
    (hhs : getenv e2 "https_proxy" = getenv w.env "https_proxy") :
    (∀ p a e, Event.execve p a e ∈ (AptUpdate.main w args).1 →
      e = aptExpectedEnvp w pwd) ∧
    (∀ p a e, Event.execve p a e ∈ (SmartNew.main w args).1 →
      e = ["PATH=/bin:/usr/bin", "HOME=" ++ pwd.pw_dir]) ∧
    (∀ x, x ∈ aptExpectedEnvp w pwd →
      x = "PATH=/bin:/usr/bin" ∨ x = "HOME=" ++ pwd.pw_dir ∨
      (∃ v, getenv w.env "http_proxy" = some v ∧ x = "http_proxy=" ++ v) ∨
      (∃ v, getenv w.env "https_proxy" = some v ∧ x = "https_proxy=" ++ v)) ∧
    AptUpdate.main { w with env := e2 } args = AptUpdate.main w args ∧
    SmartNew.main { w with env := e2 } args = SmartNew.main w args := by
  refine ⟨?_, ?_, fun x hx => aptExpectedEnvp_keys w pwd x hx, ?_, ?_⟩
  · intro p a e hm
    rcases aptMain_shape w args with hsh | ⟨pwd', envp, hp', henv, hsh⟩
    · rw [hsh] at hm; simp at hm
    · have hpe : pwd = pwd' := by rw [hpw] at hp'; exact Option.some.inj hp'
      subst hpe
      rw [hsh] at hm
      rcases privTailNew_execve_args w pwd _ _ _ p a e hm with ⟨-, -, he⟩
      rw [he]
      exact apt_envp_eq w pwd envp henv
  · intro p a e hm
    rcases smartNewMain_shape w args with hsh | ⟨pwd', argv, hp', hsh⟩
    · rw [hsh] at hm; simp at hm
    · have hpe : pwd = pwd' := by rw [hpw] at hp'; exact Option.some.inj hp'
      subst hpe
      rw [hsh] at hm
      exact (privTailNew_execve_args w pwd _ _ _ p a e hm).2.2
  · exact aptMain_cong _ _ args rfl rfl rfl rfl rfl rfl rfl rfl rfl rfl rfl hhp hhs
  · exact smartNewMain_cong _ _ args rfl rfl rfl rfl rfl rfl rfl rfl rfl rfl

theorem claim_c3_env_minimal_witness :
    wEnv.pwent = some pwdL ∧
    getenv envSample2 "http_proxy" = getenv wEnv.env "http_proxy" ∧
    getenv envSample2 "https_proxy" = getenv wEnv.env "https_proxy" ∧
    AptUpdate.main { wEnv with env := envSample2 } [] = AptUpdate.main wEnv [] ∧
    SmartNew.main { wEnv with env := envSample2 } [] = SmartNew.main wEnv [] :=
  ⟨by decide, by decide, by decide,
    (claim_c3_env_minimal wEnv envSample2 [] pwdL (by decide) (by decide)
      (by decide)).2.2.2.1,
    (claim_c3_env_minimal wEnv envSample2 [] pwdL (by decide) (by decide)
      (by decide)).2.2.2.2⟩

theorem claim_c8_no_pwent_witness :
    wNoPw.pwent = none ∧
    (AptUpdate.main wNoPw [] = ([], Result.exited 1) ∧
      SmartOld.main wNoPw [] = ([], Result.exited 1) ∧
      SmartNew.main wNoPw [] = ([], Result.exited 1) ∧
      applyTrace cRoot (AptUpdate.main wNoPw []).1 = cRoot ∧
      applyTrace cRoot (SmartOld.main wNoPw []).1 = cRoot ∧
      applyTrace cRoot (SmartNew.main wNoPw []).1 = cRoot) :=
  ⟨by decide, claim_c8_no_pwent wNoPw [] cRoot (by decide)⟩

/-! ## Exec failure as the only returning error path -/

theorem execErrorOnly_exited (t : List Event) (b : Bool) :
    execErrorOnly (t, Result.exited 1) b :=
  ⟨fun c hc => by simp at hc, fun hc => by simp at hc, Or.inl rfl⟩

theorem execErrorOnly_privTailNew (w : World) (pwd : Passwd) (path : String)
    (argv envp : List String) :
    execErrorOnly (privTailNew w pwd path argv envp) w.execOk := by
  unfold privTailNew
  split_ifs with h1 h2 h3 h4 h5 h6
  · exact execErrorOnly_exited _ _
  · exact execErrorOnly_exited _ _
  · exact execErrorOnly_exited _ _
  · exact execErrorOnly_exited _ _
  · exact execErrorOnly_exited _ _
  · refine ⟨fun c hc => by simp at hc, fun _ => ⟨h6, ?_⟩, Or.inr (Or.inr rfl)⟩
    exact ⟨_, path, argv, envp, rfl⟩
  · refine ⟨fun c hc => ?_, fun hc => by simp at hc, Or.inr (Or.inl rfl)⟩
    have hc1 : c = 1 := by injection hc with h; exact h.symm
    exact ⟨hc1, by simpa using h6, _, path, argv, envp, rfl⟩

theorem execErrorOnly_privTailOld (w : World) (pwd : Passwd) (path : String)
    (argv envp : List String) :
    execErrorOnly (privTailOld w pwd path argv envp) w.execOk := by
  unfold privTailOld
  split_ifs with h1 h2 h3 h4 h5 h6
  · exact execErrorOnly_exited _ _
  · exact execErrorOnly_exited _ _
  · exact execErrorOnly_exited _ _
  · exact execErrorOnly_exited _ _
  · exact execErrorOnly_exited _ _
  · refine ⟨fun c hc => by simp at hc, fun _ => ⟨h6, ?_⟩, Or.inr (Or.inr rfl)⟩
    exact ⟨_, path, argv, envp, rfl⟩
  · refine ⟨fun c hc => ?_, fun hc => by simp at hc, Or.inr (Or.inl rfl)⟩
    have hc1 : c = 1 := by injection hc with h; exact h.symm
    exact ⟨hc1, by simpa using h6, _, path, argv, envp, rfl⟩

/-- C9.  In all three variants, falling through to `main`'s final
`return 1` happens exactly on `execve` failure, after the trace ended
with the `execve` attempt; every other failure exits with status 1 via
`exit`, and a successful exec ends the launcher's code at the `execve`
event. -/
theorem claim_c9_exec_only_return (w : World) (args : List String) :
    execErrorOnly (AptUpdate.main w args) w.execOk ∧
    execErrorOnly (SmartOld.main w args) w.execOk ∧
    execErrorOnly (SmartNew.main w args) w.execOk := by
  refine ⟨?_, ?_, ?_⟩
  · rcases aptMain_shape w args with h | ⟨pwd, envp, _, _, h⟩
    · rw [h]; exact execErrorOnly_exited [] w.execOk
    · rw [h]; exact execErrorOnly_privTailNew w pwd _ _ _
  · rcases smartOldMain_shape w args with h | ⟨pwd, argv, _, h⟩
    · rw [h]; exact execErrorOnly_exited [] w.execOk
    · rw [h]; exact execErrorOnly_privTailOld w pwd _ _ _
  · rcases smartNewMain_shape w args with h | ⟨pwd, argv, _, h⟩
    · rw [h]; exact execErrorOnly_exited [] w.execOk
    · rw [h]; exact execErrorOnly_privTailNew w pwd _ _ _

theorem claim_c9_exec_only_return_witness :
    (AptUpdate.main wNoExec []).2 = Result.returned 1 ∧
    (1 = 1 ∧ wNoExec.execOk = false ∧
      ∃ t p a e, (AptUpdate.main wNoExec []).1 = t ++ [Event.execve p a e]) :=
  ⟨by decide, (claim_c9_exec_only_return wNoExec []).1.1 1 (by decide)⟩
